import Mathlib

/-!
Verification development for the `xrootdlib` XRootD monitoring-stream library.

The definitions below are a shallow embedding of the Python sources:

* `xrootdlib/streams/XrdXrootdMon/utility.py` (packet framer, `PSeq` comparator)
* `xrootdlib/streams/XrdXrootdMon/__init__.py` (`stream_packets` reorder buffer)
* `xrootdlib/streams/XrdXrootdMon/map.py` (`MapInfoStore`, `MapInfoStoreCleaner`)
* `xrootdlib/streams/XrdXrootdMon/fstat.py`, `trace.py`, `redir.py` (stream digests)
* `xrootdlib/structs/XrdXrootdMon/__init__.py`, `trace.py`, `fstat.py`, `map.py`
  (binary record decoders)

Bytes are modelled as `List Nat` (each entry one octet), machine integers as
`Nat`/`Int` with explicit two's-complement conversion where the wire format is
signed.  Python dictionaries are modelled as association lists where an update
prepends a binding and a lookup takes the first match.  Exceptions are modelled
with `Except`/`Option` result types.
-/

set_option linter.unusedVariables false

deriving instance DecidableEq for Except

namespace Xrootdlib

/-! ### Packet sequence comparator

`PSeq` from `streams/XrdXrootdMon/utility.py`: a sortable wrapper around the
8-bit wrapping packet sequence counter. -/

namespace PSeq

/-- Embedding of `PSeq.__gt__`: `self > other` treats a value below 64 as
having wrapped past a value of at least 191. -/
def gt (a b : Nat) : Bool :=
  if a < 64 ∧ 191 ≤ b then true
  else if b < 64 ∧ 191 ≤ a then false
  else decide (b < a)

/-- Embedding of `PSeq.__lt__`: the branch structure follows the source, which
optimises for the `small < large` test. -/
def lt (a b : Nat) : Bool :=
  if b < 64 ∧ 191 ≤ a then true
  else if 64 ≤ a ∨ b < 191 then decide (a < b)
  else false

end PSeq

/-- Membership of a sequence value `x` in the cyclic window of width `w`
starting at `s` (all values taken in the wrapping 0–255 range): the cyclic
offset of `x` from `s` is below `w`. -/
def inWindow (s w x : Nat) : Bool :=
  decide ((256 + x - s) % 256 < w)

/-! ### Reordering packet stream

`stream_packets` from `streams/XrdXrootdMon/__init__.py`.  The generator only
inspects the `pseq` of each buffered packet, so a packet is modelled by its
`pseq` value and the byte source by the list of packets it frames before
raising `PacketBufferExhausted`.  Python's stable `list.sort` with key `PSeq`
and `reverse=True` is modelled by a stable descending insertion sort (for a
comparator that is consistent on the sorted values any stable sort produces
this same unique result). -/

/-- Insert a packet into a descending-sorted buffer, keeping it after every
strictly larger element and before equal ones (stability: the inserted packet
is the earliest arrival among equals processed so far). -/
def insertDesc (x : Nat) : List Nat → List Nat
  | [] => [x]
  | y :: ys => if PSeq.lt x y then y :: insertDesc x ys else x :: y :: ys

/-- Stable descending sort by the `PSeq` comparator, modelling
`buffer.sort(key=..., reverse=True)`. -/
def sortDesc : List Nat → List Nat
  | [] => []
  | x :: xs => insertDesc x (sortDesc xs)

/-- Main loop of `stream_packets`: sort the buffer descending, yield the last
element (the smallest per `PSeq`), then admit the next packet; once the source
is exhausted, drain the remaining buffer by popping from its end, which yields
the reverse of the sorted buffer. -/
def streamLoop : List Nat → List Nat → List Nat
  | buffer, [] => (sortDesc buffer).reverse
  | buffer, p :: rest =>
      (sortDesc buffer).getLastD 0 :: streamLoop ((sortDesc buffer).dropLast ++ [p]) rest

/-- Faults of `stream_packets` surfaced to its caller. -/
inductive StreamError where
  /-- One of the `assert` statements on `sort_window` failed. -/
  | assertionError
  /-- `PacketBufferExhausted` escaped the pre-fill loop (which is outside the
  `try` block of the source). -/
  | bufferExhausted
  deriving DecidableEq, Repr

/-- Embedding of `stream_packets(packet_source, sort_window)`: assert
`0 < sort_window < 128`; pre-fill the buffer with `sort_window` packets
(`PacketBufferExhausted` raised here escapes uncaught, yielding nothing); then
run the sort/yield/admit loop, draining the buffer on exhaustion. -/
def stream_packets (src : List Nat) (sort_window : Nat) : Except StreamError (List Nat) :=
  if sort_window = 0 ∨ 128 ≤ sort_window then .error .assertionError
  else if src.length < sort_window then .error .bufferExhausted
  else .ok (streamLoop (src.take sort_window) (src.drop sort_window))

/-! ### Binary decoding helpers

Big-endian field extraction mirroring the `struct` format strings of the
sources.  A byte buffer is a `List Nat` with one octet per entry. -/

/-- Big-endian unsigned integer value of a byte list. -/
def beNat (l : List Nat) : Nat :=
  l.foldl (fun acc b => acc * 256 + b) 0

/-- Reinterpret a `w`-bit unsigned value as two's-complement signed. -/
def toSigned (w : Nat) (u : Nat) : Int :=
  if u < 2 ^ (w - 1) then (u : Int) else (u : Int) - 2 ^ w

/-- Modelled from the spec: `XROOTD_MON_SIDMASK` from the absent
`structs/XrdXrootdMon/constants.py` — the mask selecting the 48 server-id bits
of an 8-byte field (glossary: `sid` is the server instance identifier; the
`Window` and `FileTOD` decoders apply the mask to their raw sid field). -/
def XROOTD_MON_SIDMASK : Nat := 2 ^ 48 - 1

/-! ### Trace record structs (`structs/XrdXrootdMon/trace.py`)

All trace records are exactly 16 bytes (`TRACE_SIZE`). -/

/-- Entries of the t-stream are of fixed size 16. -/
def TRACE_SIZE : Nat := 16

/-- `AppId` trace record: format `!B 3x 12s`. -/
structure AppIdStruct where
  appid : List Nat
  deriving DecidableEq, Repr

/-- `Close` trace record: format `!B B B x I I L`; `rtot`/`wtot` are stored
shifted by the per-record shift counts. -/
structure CloseStruct where
  rtot : Nat
  wtot : Nat
  dictid : Nat
  deriving DecidableEq, Repr

/-- `Disc` trace record: format `!B B 6x i L`. -/
structure DiscStruct where
  flags : Nat
  buflen : Int
  dictid : Nat
  deriving DecidableEq, Repr

/-- `Open` trace record: format `!B 7s 4x L`; the file size is the big-endian
value of the 7 raw bytes. -/
structure OpenStruct where
  filesize : Nat
  dictid : Nat
  deriving DecidableEq, Repr

/-- `ReadWrite` trace record: format `!q i L`; `buflen` is a signed 32-bit
value whose sign discriminates read from write. -/
structure ReadWriteStruct where
  val : Int
  buflen : Int
  dictid : Nat
  deriving DecidableEq, Repr

/-- `ReadWrite.readlen` property: the positive part of `buflen`. -/
def ReadWriteStruct.readlen (r : ReadWriteStruct) : Int :=
  max r.buflen 0

/-- `ReadWrite.writelen` property: the positive part of `-buflen`. -/
def ReadWriteStruct.writelen (r : ReadWriteStruct) : Int :=
  max (-r.buflen) 0

/-- `Read` trace record (base of `ReadU` and `ReadV`): format `!B B H 4x i L`. -/
structure ReadStruct where
  readid : Nat
  count : Nat
  buflen : Int
  dictid : Nat
  deriving DecidableEq, Repr

/-- `Window` trace record: format `!B x 6s i i`; the raw 6-byte sid is masked
with `XROOTD_MON_SIDMASK`.  The source fields are named `sid`, `end`, `start`;
`end` is a Lean keyword, hence `end_`. -/
structure WindowStruct where
  sid : Nat
  end_ : Int
  start : Int
  deriving DecidableEq, Repr

/-- Records of the t-stream (`Trace` union of `structs/XrdXrootdMon/trace.py`).
`open` is a Lean keyword, hence `open_`. -/
inductive Trace where
  | appid (a : AppIdStruct)
  | close (c : CloseStruct)
  | disc (d : DiscStruct)
  | open_ (o : OpenStruct)
  | readwrite (r : ReadWriteStruct)
  | readu (r : ReadStruct)
  | readv (r : ReadStruct)
  | window (w : WindowStruct)
  deriving DecidableEq, Repr

/-- Byte `i` of a buffer (buffers are only indexed below within their parsed
prefix, so the default is never observed on the paths the theorems take). -/
def byteAt (b : List Nat) (i : Nat) : Nat :=
  b.getD i 0

/-- `AppId.from_buffer`: `struct.error` (`none`) when fewer than 16 bytes
remain. -/
def AppIdStruct.from_buffer (b : List Nat) : Option AppIdStruct :=
  if 16 ≤ b.length then some ⟨(b.drop 4).take 12⟩ else none

/-- `Close.from_buffer`: totals are the stored base values shifted left by the
per-record shift counts. -/
def CloseStruct.from_buffer (b : List Nat) : Option CloseStruct :=
  if 16 ≤ b.length then
    some ⟨beNat ((b.drop 4).take 4) * 2 ^ byteAt b 1,
          beNat ((b.drop 8).take 4) * 2 ^ byteAt b 2,
          beNat ((b.drop 12).take 4)⟩
  else none

/-- `Disc.from_buffer`. -/
def DiscStruct.from_buffer (b : List Nat) : Option DiscStruct :=
  if 16 ≤ b.length then
    some ⟨byteAt b 1, toSigned 32 (beNat ((b.drop 8).take 4)),
          beNat ((b.drop 12).take 4)⟩
  else none

/-- `Open.from_buffer`. -/
def OpenStruct.from_buffer (b : List Nat) : Option OpenStruct :=
  if 16 ≤ b.length then
    some ⟨beNat ((b.drop 1).take 7), beNat ((b.drop 12).take 4)⟩
  else none

/-- `ReadWrite.from_buffer`: `val` spans the first eight bytes (the format has
no leading tag byte; the tag is the high nibble of the first byte, which is
zero for `ReadWrite`). -/
def ReadWriteStruct.from_buffer (b : List Nat) : Option ReadWriteStruct :=
  if 16 ≤ b.length then
    some ⟨toSigned 64 (beNat (b.take 8)), toSigned 32 (beNat ((b.drop 8).take 4)),
          beNat ((b.drop 12).take 4)⟩
  else none

/-- `Read.from_buffer` (shared by `ReadU` and `ReadV`). -/
def ReadStruct.from_buffer (b : List Nat) : Option ReadStruct :=
  if 16 ≤ b.length then
    some ⟨byteAt b 1, beNat ((b.drop 2).take 2),
          toSigned 32 (beNat ((b.drop 8).take 4)), beNat ((b.drop 12).take 4)⟩
  else none

/-- `Window.from_buffer`. -/
def WindowStruct.from_buffer (b : List Nat) : Option WindowStruct :=
  if 16 ≤ b.length then
    some ⟨beNat ((b.drop 2).take 6) &&& XROOTD_MON_SIDMASK,
          toSigned 32 (beNat ((b.drop 8).take 4)),
          toSigned 32 (beNat ((b.drop 12).take 4))⟩
  else none

/-- Faults raised by the record decoders and the surrounding framing. -/
inductive DecodeError where
  /-- A `struct.unpack_from` ran out of bytes (`struct.error`). -/
  | structError
  /-- An unknown code or record tag (`ValueError`). -/
  | valueError
  deriving DecidableEq, Repr

/-- Record loop of `Buff.from_record` (`structs/XrdXrootdMon/__init__.py`):
while the view is non-empty, mask the first byte with `0xf0`; if the high bit
is set dispatch on the masked tag (`READU = 0x91` also masks to `READV`'s
`0x90`), otherwise parse a `ReadWrite`; tags `0xb0` and `0xf0` raise
`ValueError`; every parsed record consumes 16 bytes. -/
def buffRecords (view : List Nat) : Except DecodeError (List Trace) :=
  if hv : view = [] then .ok []
  else
    let tag := byteAt view 0 &&& 0xf0
    let record : Except DecodeError Trace :=
      if tag >>> 7 = 1 then
        if tag = 0x80 then (OpenStruct.from_buffer view).elim (.error .structError) (.ok ∘ .open_)
        else if tag = 0x90 then (ReadStruct.from_buffer view).elim (.error .structError) (.ok ∘ .readv)
        else if tag = 0xa0 then (AppIdStruct.from_buffer view).elim (.error .structError) (.ok ∘ .appid)
        else if tag = 0xc0 then (CloseStruct.from_buffer view).elim (.error .structError) (.ok ∘ .close)
        else if tag = 0xd0 then (DiscStruct.from_buffer view).elim (.error .structError) (.ok ∘ .disc)
        else if tag = 0xe0 then (WindowStruct.from_buffer view).elim (.error .structError) (.ok ∘ .window)
        else .error .valueError
      else (ReadWriteStruct.from_buffer view).elim (.error .structError) (.ok ∘ .readwrite)
    match record with
    | .error e => .error e
    | .ok r => (buffRecords (view.drop TRACE_SIZE)).map (r :: ·)
termination_by view.length
decreasing_by
  simp only [TRACE_SIZE, List.length_drop]
  have : view.length ≠ 0 := fun h0 => hv (List.length_eq_zero.mp h0)
  omega

/-- `Buff.from_record`: record code must be `b't'` (checked by the caller via
the dispatch; the explicit code check of the source is kept by the packet
dispatch below), then parse the flat record sequence. -/
def Buff.from_record (record_data : List Nat) : Except DecodeError (List Trace) :=
  buffRecords record_data

/-- `XrdXrootdMonHeader` (`structs/XrdXrootdMon/__init__.py`): format
`!c B H l`, size 8. -/
structure Header where
  code : Nat
  pseq : Nat
  plen : Nat
  stod : Int
  deriving DecidableEq, Repr

/-- `Header.size` (`struct_parser.size` of format `!c B H l`). -/
def Header.size : Nat := 8

/-- `Header.from_buffer`: `struct.error` (`none`) when fewer than 8 bytes are
available. -/
def Header.from_buffer (b : List Nat) : Option Header :=
  if 8 ≤ b.length then
    some ⟨byteAt b 0, byteAt b 1, beNat ((b.drop 2).take 2),
          toSigned 32 (beNat ((b.drop 4).take 4))⟩
  else none

/-- Decoded payload of a packet.  Only the t-stream (`Buff`) decoder is
embedded; the map, r-stream, f-stream and g-stream byte decoders hold their
raw body here (no claim depends on their byte-level decoding — the stream
digests below operate on already-decoded records). -/
inductive PacketRecord where
  | buff (records : List Trace)
  | mapBody (body : List Nat)
  | burrBody (body : List Nat)
  | fstatBody (body : List Nat)
  | pluginBody (body : List Nat)
  deriving DecidableEq, Repr

/-- `XrdXrootdMon` packet: header plus decoded record. -/
structure Packet where
  header : Header
  record : PacketRecord
  deriving DecidableEq, Repr

/-- `Packet.from_buffer`: parse the header, slice the record bytes as
`buffer[header.size : header.plen]` (clamped, as a `memoryview` slice is) and
dispatch on the code: `=`, `d`, `i`, `p`, `u`, `x` → Map, `r` → Burr,
`t` → Buff, `f` → Fstat, `g` → Plugin, anything else `ValueError`. -/
def Packet.from_buffer (buffer : List Nat) : Except DecodeError Packet :=
  match Header.from_buffer buffer with
  | none => .error .structError
  | some header =>
    let body := (buffer.drop Header.size).take (header.plen - Header.size)
    if header.code = 116 then (Buff.from_record body).map (fun rs => ⟨header, .buff rs⟩)
    else if header.code ∈ [61, 100, 105, 112, 117, 120] then .ok ⟨header, .mapBody body⟩
    else if header.code = 114 then .ok ⟨header, .burrBody body⟩
    else if header.code = 102 then .ok ⟨header, .fstatBody body⟩
    else if header.code = 103 then .ok ⟨header, .pluginBody body⟩
    else .error .valueError

/-- Faults of `packet_from_buffer` (`streams/XrdXrootdMon/utility.py`). -/
inductive FramerError where
  /-- `PacketBufferExhausted`, raised only when the header read comes up
  short. -/
  | packetBufferExhausted
  /-- A fault of `Packet.from_buffer`, which the framer does not convert. -/
  | decodeError (e : DecodeError)
  deriving DecidableEq, Repr

/-- A `read(n)` on the byte source: returns at most `n` bytes (fewer only at
exhaustion); a negative count reads everything that remains, as `IO.read`
does. -/
def readBytes (src : List Nat) (n : Int) : List Nat :=
  if n < 0 then src else src.take n.toNat

/-- Embedding of `packet_from_buffer(packet_source)`: read 8 header bytes and
parse them — a `struct.error` here (short read) becomes
`PacketBufferExhausted`; then read `plen - header.size` further bytes and hand
header plus payload to `Packet.from_buffer`, whose faults propagate
unconverted (the `try` block covers only the header read and parse). -/
def packet_from_buffer (source : List Nat) : Except FramerError Packet :=
  let header_data := source.take Header.size
  match Header.from_buffer header_data with
  | none => .error .packetBufferExhausted
  | some header =>
    let payload := readBytes (source.drop Header.size) ((header.plen : Int) - (Header.size : Int))
    match Packet.from_buffer (header_data ++ payload) with
    | .ok p => .ok p
    | .error e => .error (.decodeError e)

/-! ### Map record structs (`structs/XrdXrootdMon/map.py`)

Attribute-level models of the decoded map payloads; byte strings are
`List Nat`. -/

/-- `UserId`: the `prot/user.pid:sid@host` client identifier. -/
structure UserId where
  prot : List Nat
  user : List Nat
  pid : Nat
  sid : Nat
  host : List Nat
  deriving DecidableEq, Repr

/-- `SrvInfo` payload: the xrootd instance sending reports. -/
structure SrvInfo where
  pgm : List Nat
  ver : List Nat
  inst : List Nat
  port : Nat
  site : List Nat
  deriving DecidableEq, Repr

/-- `Path` payload: full path name of a file being opened. -/
structure Path where
  path : List Nat
  deriving DecidableEq, Repr

/-- `AppInfo` payload: un-interpreted application supplied information. -/
structure AppInfo where
  appinfo : List Nat
  deriving DecidableEq, Repr

/-- `PrgInfo` payload: the purging of a file. -/
structure PrgInfo where
  xfn : List Nat
  tod : Int
  sz : Nat
  at_ : Int
  ct : Int
  mt : Int
  fn : List Nat
  deriving DecidableEq, Repr

/-- `XfrInfo` payload: the transfer of a file. -/
structure XfrInfo where
  lfn : List Nat
  tod : Int
  sz : Nat
  tm : Nat
  op : List Nat
  rc : Int
  pd : Option (List Nat)
  deriving DecidableEq, Repr

/-- `AuthInfo` payload: an authenticating user (all CGI fields optional). -/
structure AuthInfo where
  protocol : Option (List Nat)
  name : Option (List Nat)
  host : Option (List Nat)
  organisation : Option (List Nat)
  role : Option (List Nat)
  group : Option (List Nat)
  m : Option (List Nat)
  executable : Option (List Nat)
  moninfo : Option (List Nat)
  deriving DecidableEq, Repr

/-- The `MapPayload` union. -/
inductive MapPayload where
  | srvInfo (s : SrvInfo)
  | path (p : Path)
  | appInfo (a : AppInfo)
  | prgInfo (p : PrgInfo)
  | authInfo (a : AuthInfo)
  | xfrInfo (x : XfrInfo)
  deriving DecidableEq, Repr

/-- Whether `MapInfoStore._payload_dispatch` has an entry for the payload:
only `SrvInfo`, `AuthInfo` and `Path` are present. -/
def MapPayload.inDispatch : MapPayload → Bool
  | .srvInfo _ | .authInfo _ | .path _ => true
  | _ => false

/-- `XrdXrootdMonMap` record: `dictid`, `userid` and decoded payload. -/
structure MapStruct where
  dictid : Nat
  userid : UserId
  payload : MapPayload
  deriving DecidableEq, Repr

/-! ### Correlation store (`streams/XrdXrootdMon/map.py`) -/

/-- `ServerInfo`: merged view of the `UserId` and `SrvInfo` of a server
identification, plus the packet `stod`. -/
structure ServerInfo where
  protocol : List Nat
  user : List Nat
  pid : Nat
  sid : Nat
  host : List Nat
  program : List Nat
  version : List Nat
  instance_ : List Nat
  port : Nat
  site : List Nat
  stod : Int
  deriving DecidableEq, Repr

/-- `ServerInfo.__init__` from a `UserId` and a `SrvInfo`. -/
def ServerInfo.ofParts (user_id : UserId) (server_info : SrvInfo) (stod : Int) : ServerInfo :=
  ⟨user_id.prot, user_id.user, user_id.pid, user_id.sid, user_id.host,
   server_info.pgm, server_info.ver, server_info.inst, server_info.port,
   server_info.site, stod⟩

/-- `UserInfo`: a client session bound to its server. -/
structure UserInfo where
  client : UserId
  server : ServerInfo
  auth_info : Option AuthInfo
  deriving DecidableEq, Repr

/-- `PathAccessInfo`: metadata of a client accessing a path on a server;
`client` and `auth` may be unavailable and just `None`. -/
structure PathAccessInfo where
  client : Option UserId
  server : ServerInfo
  path : List Nat
  auth : Option AuthInfo
  deriving DecidableEq, Repr

/-- The `MapInfo` union returned by `digest_map`. -/
inductive MapInfo where
  | server (s : ServerInfo)
  | user (u : UserInfo)
  | access (a : PathAccessInfo)
  deriving DecidableEq, Repr

/-- `MapInfoError`: an item was not in the map store. -/
inductive MapInfoError where
  | mapInfoError
  deriving DecidableEq, Repr

/-- A deferred deletion instruction handed to the cleaner
(`(dict.pop, key, None)` triples, tagged by the table popped from). -/
inductive Deletion where
  | server (key : Int × Nat)
  | user (key : Int × Nat)
  | access (key : Int × Nat)
  deriving DecidableEq, Repr

/-- Lookup in an association-list model of a Python dict: first binding
wins. -/
def dictGet {K V : Type} [DecidableEq K] (l : List (K × V)) (k : K) : Option V :=
  (l.find? (fun kv => kv.1 = k)).map (·.2)

/-- Update in the association-list model: prepend the new binding (lookups see
it first, shadowing any older binding, as a dict assignment does). -/
def dictSet {K V : Type} [DecidableEq K] (l : List (K × V)) (k : K) (v : V) : List (K × V) :=
  (k, v) :: l

/-- `MapInfoStore` state: the three identity tables, the
`(host, port) → (stod, sid)` server-lifetime index and the cleaner's deletion
queue (`MapInfoStoreCleaner._deletion_queue`). -/
structure MapInfoStore where
  server_info : List ((Int × Nat) × ServerInfo)
  user_info : List ((Int × Nat) × UserInfo)
  access_info : List ((Int × Nat) × PathAccessInfo)
  server_lifetime : List ((List Nat × Nat) × (Int × Nat))
  deletion_queue : List Deletion
  deriving DecidableEq, Repr

/-- `MapInfoStore.__init__`: all tables start empty. -/
def MapInfoStore.init : MapInfoStore :=
  ⟨[], [], [], [], []⟩

namespace MapInfoStore

/-- `get_server`: resolve `(stod, sid)` or fail with `MapInfoError`. -/
def get_server (store : MapInfoStore) (stod : Int) (sid : Nat) :
    Except MapInfoError ServerInfo :=
  match dictGet store.server_info (stod, sid) with
  | some s => .ok s
  | none => .error .mapInfoError

/-- `get_user`: resolve `(stod, dictid)` or fail with `MapInfoError`. -/
def get_user (store : MapInfoStore) (stod : Int) (dictid : Nat) :
    Except MapInfoError UserInfo :=
  match dictGet store.user_info (stod, dictid) with
  | some u => .ok u
  | none => .error .mapInfoError

/-- `get_access`: resolve `(stod, dictid)` or fail with `MapInfoError`. -/
def get_access (store : MapInfoStore) (stod : Int) (dictid : Nat) :
    Except MapInfoError PathAccessInfo :=
  match dictGet store.access_info (stod, dictid) with
  | some a => .ok a
  | none => .error .mapInfoError

/-- `free_user`: enqueue a deferred deletion of the user entry (never an
immediate removal). -/
def free_user (store : MapInfoStore) (stod : Int) (dictid : Nat) : MapInfoStore :=
  { store with deletion_queue := store.deletion_queue ++ [.user (stod, dictid)] }

/-- `free_access`: enqueue a deferred deletion of the access entry. -/
def free_access (store : MapInfoStore) (stod : Int) (dictid : Nat) : MapInfoStore :=
  { store with deletion_queue := store.deletion_queue ++ [.access (stod, dictid)] }

/-- `set_access`: add a file access info based on raw references (fstat `Open`
with LFN).  With `userid > 0` the client and auth are inherited from the
existing `UserInfo` (`MapInfoError` propagates if it is absent); otherwise
they are `None`. -/
def set_access (store : MapInfoStore) (server : ServerInfo) (dictid userid : Nat)
    (path : List Nat) : Except MapInfoError (PathAccessInfo × MapInfoStore) :=
  if 0 < userid then
    match store.get_user server.stod userid with
    | .error e => .error e
    | .ok u =>
        let item : PathAccessInfo := ⟨some u.client, server, path, u.auth_info⟩
        .ok (item, { store with
          access_info := dictSet store.access_info (server.stod, dictid) item })
  else
    let item : PathAccessInfo := ⟨none, server, path, none⟩
    .ok (item, { store with
      access_info := dictSet store.access_info (server.stod, dictid) item })

/-- `_digest_map_server`: look up the `(host, port)` instance identifier in
`_server_lifetime` — the source never writes to that mapping, so the lookup
raises `KeyError` and no deletion is scheduled — then insert the new
`ServerInfo` at `(stod, user_id.sid)`. -/
def digest_map_server (store : MapInfoStore) (stod : Int) (dictid : Nat)
    (user_id : UserId) (server_info : SrvInfo) : ServerInfo × MapInfoStore :=
  let store1 :=
    match dictGet store.server_lifetime (user_id.host, server_info.port) with
    | some deprecated =>
        { store with deletion_queue := store.deletion_queue ++ [Deletion.server deprecated] }
    | none => store
  let info := ServerInfo.ofParts user_id server_info stod
  (info, { store1 with server_info := dictSet store1.server_info (stod, user_id.sid) info })

/-- `_digest_map_auth`: resolve the server named by `user_id.sid`
(`MapInfoError` on a miss, raised before any mutation), then insert the
`UserInfo` at `(stod, dictid)`. -/
def digest_map_auth (store : MapInfoStore) (stod : Int) (dictid : Nat)
    (user_id : UserId) (auth_info : AuthInfo) :
    Except MapInfoError (UserInfo × MapInfoStore) :=
  match store.get_server stod user_id.sid with
  | .error e => .error e
  | .ok server_info =>
      let user_info : UserInfo := ⟨user_id, server_info, some auth_info⟩
      .ok (user_info, { store with
        user_info := dictSet store.user_info (stod, dictid) user_info })

/-- `_digest_map_path`: resolve the server named by `user_id.sid`, then insert
the `PathAccessInfo` at `(stod, dictid)`. -/
def digest_map_path (store : MapInfoStore) (stod : Int) (dictid : Nat)
    (user_id : UserId) (path_info : Path) :
    Except MapInfoError (PathAccessInfo × MapInfoStore) :=
  match store.get_server stod user_id.sid with
  | .error e => .error e
  | .ok server_info =>
      let item : PathAccessInfo := ⟨some user_id, server_info, path_info.path, none⟩
      .ok (item, { store with
        access_info := dictSet store.access_info (stod, dictid) item })

end MapInfoStore

/-- Faults escaping `MapInfoStore.digest_map`. -/
inductive DigestError where
  /-- `chainlet.StopTraversal` — a `MapInfoError` was caught and converted;
  the chain framework drops the value and advances. -/
  | stopTraversal
  /-- An uncaught `KeyError` from the `_payload_dispatch` lookup, which sits
  before the `try` block. -/
  | keyError
  deriving DecidableEq, Repr

/-- `MapInfoStore.digest_map`: select the digest method by payload type — the
dispatch table holds only `SrvInfo`, `AuthInfo` and `Path`, so the lookup for
`AppInfo`, `PrgInfo` or `XfrInfo` payloads raises `KeyError` (uncaught); a
`MapInfoError` from a digest method becomes `chainlet.StopTraversal`.  The
store is returned alongside (unchanged whenever an error is reported, as the
digest methods raise before mutating). -/
def MapInfoStore.digest_map (store : MapInfoStore) (stod : Int) (m : MapStruct) :
    Except DigestError MapInfo × MapInfoStore :=
  match m.payload with
  | .srvInfo si =>
      let (info, store') := store.digest_map_server stod m.dictid m.userid si
      (.ok (.server info), store')
  | .authInfo ai =>
      match store.digest_map_auth stod m.dictid m.userid ai with
      | .error _ => (.error .stopTraversal, store)
      | .ok (info, store') => (.ok (.user info), store')
  | .path p =>
      match store.digest_map_path stod m.dictid m.userid p with
      | .error _ => (.error .stopTraversal, store)
      | .ok (info, store') => (.ok (.access info), store')
  | _ => (.error .keyError, store)

/-! ### Deferred eviction timing (`MapInfoStoreCleaner`)

The cleaner thread runs cycles of length `clean_delay` (default 30 s): at each
cycle start it computes `terminate_at = now + clean_delay`, swaps the deletion
queue, sleeps 0.1 s (the mutation guard), executes the swapped instructions,
and then sleeps until `terminate_at`.  Time is modelled in tenths of a second
with exact sleeps: cycle `k` starts at tick `k * clean_delay`, and an
instruction enqueued at tick `t` is swapped out at the first cycle start after
`t` and executed one guard tick later. -/

/-- Tick at which the cleaner executes a deletion enqueued at tick `enq`
(`clean_delay` and the 0.1 s guard in ticks). -/
def MapInfoStoreCleaner.executionTick (clean_delay guard enq : Nat) : Nat :=
  clean_delay * (enq / clean_delay + 1) + guard

/-! ### Fstat record structs (`structs/XrdXrootdMon/fstat.py`), attribute level -/

/-- Record flags for the f stream (`recFval`). -/
def recFval.hasLFN : Nat := 0x01

/-- `recFval.hasRW`: file record opened for reads and writes. -/
def recFval.hasRW : Nat := 0x02

/-- `XrdXrootdMonFileTOD`: sender and time range of an f-stream packet. -/
structure FileTOD where
  flags : Nat
  records_xfr : Nat
  records_total : Nat
  start : Int
  end_ : Int
  sid : Nat
  deriving DecidableEq, Repr

/-- `XrdXrootdMonFileDSC`: a client disconnected. -/
structure FileDSC where
  flags : Nat
  dictid : Nat
  deriving DecidableEq, Repr

/-- `XrdXrootdMonFileOPN`: a client opened a file; with `hasLFN` the record
carries the user dictid and the LFN inline (`from_buffer` sets `user` and
`lfn` together, otherwise both are `None`). -/
structure FileOPN where
  flags : Nat
  size : Nat
  fileid : Nat
  filesize : Nat
  user : Option Nat
  lfn : Option (List Nat)
  deriving DecidableEq, Repr

/-- `XrdXrootdMonStatOPS`: file operation statistics. -/
structure StatOPS where
  read : Int
  readv : Int
  write : Int
  rsmin : Int
  rsmax : Int
  rsegs : Int
  rdmin : Int
  rdmax : Int
  rvmin : Int
  rvmax : Int
  wrmin : Int
  wrmax : Int
  deriving DecidableEq, Repr

/-- `XrdXrootdMonStatSSQ`: file operation statistic deviations. -/
structure StatSSQ where
  read : Int
  readv : Int
  rsegs : Int
  write : Int
  deriving DecidableEq, Repr

/-- `XrdXrootdMonFileCLS`: a client closed a file. -/
structure FileCLS where
  flags : Nat
  size : Nat
  fileid : Nat
  read : Int
  readv : Int
  write : Int
  ops : Option StatOPS
  ssq : Option StatSSQ
  deriving DecidableEq, Repr

/-- `XrdXrootdMonFileXFR`: file transfer statistics. -/
structure FileXFR where
  flags : Nat
  fileid : Nat
  read : Int
  readv : Int
  write : Int
  deriving DecidableEq, Repr

/-- The `FileRecord` union (a `FileTOD` may also appear in a record list). -/
inductive FileRecord where
  | tod (t : FileTOD)
  | dsc (d : FileDSC)
  | opn (o : FileOPN)
  | cls (c : FileCLS)
  | xfr (x : FileXFR)
  deriving DecidableEq, Repr

/-- `XrdXrootdMonFstat` packet payload: leading `FileTOD` plus the remaining
records. -/
structure FstatStruct where
  tod : FileTOD
  records : List FileRecord
  deriving DecidableEq, Repr

/-! ### Redirect record structs

Modelled from the spec: `structs/XrdXrootdMon/redir.py` is absent from `src/`
(only its callers are present), so the r-stream record shapes follow §3/§4.1 of
the specification: a `Burr` packet is a leading `ServerIdent` followed by
`Redirect` records framed by `WindowMark`s. -/

/-- Modelled from the spec: `ServerIdent` names the reporting server by its
`sid`. -/
structure ServerIdent where
  sid : Nat
  deriving DecidableEq, Repr

/-- Modelled from the spec: `WindowMark` delimits a time interval; it carries
its timestamp and the duration of the previous window. -/
structure WindowMark where
  timestamp : Int
  prev_duration : Int
  deriving DecidableEq, Repr

/-- Modelled from the spec: the two redirect record kinds of the `XROOTD_MON`
enum dispatched by the redir stream handler. -/
inductive RedirKind where
  | REDIRECT
  | REDLOCAL
  deriving DecidableEq, Repr

/-- Modelled from the spec: a `Redirect` record — kind, action subtype, target
server, port, client dictid and path. -/
structure Redirect where
  type_ : RedirKind
  subtype : Nat
  server : List Nat
  port : Nat
  dictid : Nat
  path : List Nat
  deriving DecidableEq, Repr

/-- Records following the `ServerIdent` of a `Burr` packet. -/
inductive RedirRecord where
  | redirect (r : Redirect)
  | windowMark (w : WindowMark)
  deriving DecidableEq, Repr

/-- `XrdXrootdMonBurr` packet payload. -/
structure BurrStruct where
  sid : ServerIdent
  records : List RedirRecord
  deriving DecidableEq, Repr

/-- Faults escaping the stream digests of `streams/XrdXrootdMon/fstat.py`,
`trace.py` and `redir.py`. -/
inductive StreamDigestError where
  /-- `chainlet.StopTraversal`: the packet is dropped and the pipeline
  advances. -/
  | stopTraversal
  /-- An uncaught `KeyError` from a dispatch-table lookup. -/
  | keyError
  /-- An uncaught `MapInfoError` (the redir handler's `except KeyError` does
  not match it). -/
  | mapInfoError
  /-- A failed `assert`. -/
  | assertionError
  /-- `next()` on an exhausted iterator inside a generator (PEP 479). -/
  | runtimeError
  deriving DecidableEq, Repr

/-! ### Fstat stream digest (`streams/XrdXrootdMon/fstat.py`) -/

namespace FstatStream

/-- Fstat `Disconnect` event. -/
structure Disconnect where
  client : UserInfo
  deriving DecidableEq, Repr

/-- Fstat `Open` event. -/
structure Open where
  client : PathAccessInfo
  lfn : List Nat
  readwrite : Bool
  filesize : Nat
  deriving DecidableEq, Repr

/-- Fstat `Close` event. -/
structure Close where
  client : PathAccessInfo
  lfn : List Nat
  stats : FileCLS
  deriving DecidableEq, Repr

/-- Fstat `Transfer` event. -/
structure Transfer where
  client : PathAccessInfo
  lfn : List Nat
  stats : FileXFR
  deriving DecidableEq, Repr

/-- Events of an `FstatWindow`. -/
inductive Event where
  | disconnect (d : Disconnect)
  | open_ (o : Open)
  | close (c : Close)
  | transfer (t : Transfer)
  deriving DecidableEq, Repr

/-- `FstatWindow`: the surviving converted records of one f-stream packet. -/
structure FstatWindow where
  server_info : ServerInfo
  start : Int
  end_ : Int
  records : List Event
  deriving DecidableEq, Repr

/-- `Disconnect.from_record`: fetch the `UserInfo` (a miss raises before any
mutation), then enqueue `free_user`. -/
def Disconnect.from_record (r : FileDSC) (server : ServerInfo) (store : MapInfoStore) :
    Except MapInfoError (Disconnect × MapInfoStore) :=
  match store.get_user server.stod r.dictid with
  | .error e => .error e
  | .ok client => .ok (⟨client⟩, store.free_user server.stod r.dictid)

/-- `Open.from_record`: without an inline user/lfn, fetch the existing access
entry; with one, install it via `set_access` (the decoder sets `user` and
`lfn` together, so the `getD` default is never taken). -/
def Open.from_record (r : FileOPN) (server : ServerInfo) (store : MapInfoStore) :
    Except MapInfoError (Open × MapInfoStore) :=
  let read_write := decide (r.flags &&& recFval.hasRW ≠ 0)
  match r.user with
  | none =>
      match store.get_access server.stod r.fileid with
      | .error e => .error e
      | .ok access_info =>
          .ok (⟨access_info, access_info.path, read_write, r.filesize⟩, store)
  | some userid =>
      match store.set_access server r.fileid userid (r.lfn.getD []) with
      | .error e => .error e
      | .ok (access_info, store') =>
          .ok (⟨access_info, access_info.path, read_write, r.filesize⟩, store')

/-- `Close.from_record`: fetch the access entry, then enqueue
`free_access`. -/
def Close.from_record (r : FileCLS) (server : ServerInfo) (store : MapInfoStore) :
    Except MapInfoError (Close × MapInfoStore) :=
  match store.get_access server.stod r.fileid with
  | .error e => .error e
  | .ok path_info =>
      .ok (⟨path_info, path_info.path, r⟩, store.free_access server.stod r.fileid)

/-- `Transfer.from_record`: fetch the access entry, then enqueue
`free_access`. -/
def Transfer.from_record (r : FileXFR) (server : ServerInfo) (store : MapInfoStore) :
    Except MapInfoError (Transfer × MapInfoStore) :=
  match store.get_access server.stod r.fileid with
  | .error e => .error e
  | .ok path_info =>
      .ok (⟨path_info, path_info.path, r⟩, store.free_access server.stod r.fileid)

/-- Record loop of the fstat `digest_packet`: dispatch each record through
`convert_record_dispatch` (a `FileTOD` has no entry there, so it raises
`KeyError`), drop records whose conversion raises `MapInfoError`, and keep the
store mutations of the surviving conversions. -/
def digestRecords (server : ServerInfo) (store : MapInfoStore) :
    List FileRecord → Except StreamDigestError (List Event × MapInfoStore)
  | [] => .ok ([], store)
  | .tod _ :: _ => .error .keyError
  | .dsc r :: rest =>
      match Disconnect.from_record r server store with
      | .error _ => digestRecords server store rest
      | .ok (e, store') => (digestRecords server store' rest).map (fun (es, st) => (.disconnect e :: es, st))
  | .opn r :: rest =>
      match Open.from_record r server store with
      | .error _ => digestRecords server store rest
      | .ok (e, store') => (digestRecords server store' rest).map (fun (es, st) => (.open_ e :: es, st))
  | .cls r :: rest =>
      match Close.from_record r server store with
      | .error _ => digestRecords server store rest
      | .ok (e, store') => (digestRecords server store' rest).map (fun (es, st) => (.close e :: es, st))
  | .xfr r :: rest =>
      match Transfer.from_record r server store with
      | .error _ => digestRecords server store rest
      | .ok (e, store') => (digestRecords server store' rest).map (fun (es, st) => (.transfer e :: es, st))

/-- `digest_packet` of `streams/XrdXrootdMon/fstat.py`: resolve the server by
`(stod, tod.sid)` — a miss is caught as `MapInfoError` and converted to
`chainlet.StopTraversal`, dropping the whole packet — then convert the
records; if none survive, `StopTraversal` again, else emit the
`FstatWindow`. -/
def digest_fstat_packet (stod : Int) (fstat : FstatStruct) (store : MapInfoStore) :
    Except StreamDigestError FstatWindow × MapInfoStore :=
  match store.get_server stod fstat.tod.sid with
  | .error _ => (.error .stopTraversal, store)
  | .ok server_info =>
      match digestRecords server_info store fstat.records with
      | .error e => (.error e, store)
      | .ok (records, store') =>
          if records.isEmpty then (.error .stopTraversal, store')
          else (.ok ⟨server_info, fstat.tod.start, fstat.tod.end_, records⟩, store')

end FstatStream

/-! ### Trace stream conversion (`streams/XrdXrootdMon/trace.py`) -/

namespace TraceStream

/-- Trace `ReadWrite` event: a client read from or wrote to a file. -/
structure ReadWrite where
  client : PathAccessInfo
  lfn : List Nat
  offset : Int
  read : Int
  write : Int
  deriving DecidableEq, Repr

/-- `ReadWrite.from_record`: resolve the access entry; with `buflen > 0` the
event carries `read = buflen, write = 0`, otherwise the source assigns
`write, read = record_struct.buflen, 0` — the raw (negative) `buflen`. -/
def ReadWrite.from_record (r : ReadWriteStruct) (stod : Int) (store : MapInfoStore) :
    Except MapInfoError ReadWrite :=
  match store.get_access stod r.dictid with
  | .error e => .error e
  | .ok path_info =>
      if 0 < r.buflen then .ok ⟨path_info, path_info.path, r.val, r.buflen, 0⟩
      else .ok ⟨path_info, path_info.path, r.val, 0, r.buflen⟩

end TraceStream

/-! ### Redir stream digest (`streams/XrdXrootdMon/redir.py`) -/

namespace RedirStream

/-- The concrete `Redirection` subclass an event was built with. -/
inductive RedirectionClass where
  /-- `CmsdRedir`, dispatched from `XROOTD_MON.REDIRECT`. -/
  | cmsdRedir
  /-- `XrootdRedir`, dispatched from `XROOTD_MON.REDLOCAL`. -/
  | xrootdRedir
  deriving DecidableEq, Repr

/-- A `Redirection` event (`XrootdRedir` or `CmsdRedir`). -/
structure Redirection where
  cls : RedirectionClass
  action : Nat
  target : List Nat
  port : Nat
  client : UserInfo
  path : List Nat
  deriving DecidableEq, Repr

/-- `RedirWindow`: redirect events between two window marks. -/
structure RedirWindow where
  server_info : ServerInfo
  start : Int
  end_ : Int
  records : List Redirection
  deriving DecidableEq, Repr

/-- `Redirection.from_record`: resolve the client by `(stod, dictid)` (a miss
raises `MapInfoError`, dropping only this record), then build the event with
the class selected by `convert_record_dispatch`. -/
def Redirection.from_record (r : Redirect) (stod : Int) (store : MapInfoStore) :
    Except MapInfoError Redirection :=
  match store.get_user stod r.dictid with
  | .error e => .error e
  | .ok client =>
      let cls := match r.type_ with
        | .REDIRECT => RedirectionClass.cmsdRedir
        | .REDLOCAL => RedirectionClass.xrootdRedir
      .ok ⟨cls, r.subtype, r.server, r.port, client, r.path⟩

/-- Record loop of the redir `digest_packet`: accumulate converted redirects,
dropping those whose client lookup fails; each further `WindowMark` emits the
accumulated window (start = current mark's timestamp, end = start plus the
next mark's `prev_duration`) if it is non-empty; dangling records after the
final mark fail the closing `assert`. -/
def digestRecords (stod : Int) (store : MapInfoStore) (server : ServerInfo)
    (this_window : WindowMark) (events : List Redirection) :
    List RedirRecord → Except StreamDigestError (List RedirWindow)
  | [] => if events.isEmpty then .ok [] else .error .assertionError
  | .redirect r :: rest =>
      match Redirection.from_record r stod store with
      | .error _ => digestRecords stod store server this_window events rest
      | .ok e => digestRecords stod store server this_window (events ++ [e]) rest
  | .windowMark w :: rest =>
      let tail := digestRecords stod store server w [] rest
      if events.isEmpty then tail
      else tail.map
        (RedirWindow.mk server this_window.timestamp
          (this_window.timestamp + w.prev_duration) events :: ·)

/-- `digest_packet` of `streams/XrdXrootdMon/redir.py`: resolve the server by
`(stod, sid.sid)` inside `try … except KeyError` — but `get_server` raises
`MapInfoError`, which is not a `KeyError`, so the handler never fires and the
error propagates to the consumer instead of becoming `StopTraversal`; then the
first record must be a `WindowMark` and the mark/redirect loop runs.  The
store is never mutated on this path (the converters only read). -/
def digest_redir_packet (stod : Int) (burr : BurrStruct) (store : MapInfoStore) :
    Except StreamDigestError (List RedirWindow) × MapInfoStore :=
  match store.get_server stod burr.sid.sid with
  | .error _ => (.error .mapInfoError, store)
  | .ok server_info =>
      match burr.records with
      | [] => (.error .runtimeError, store)
      | .redirect _ :: _ => (.error .assertionError, store)
      | .windowMark w :: rest =>
          (digestRecords stod store server_info w [] rest, store)

end RedirStream

/-- The server, access entry and store used by the C1 evaluation: one access
entry installed at `(stod, dictid) = (7, 42)` with path `b"/f"`. -/
def serverC1 : ServerInfo :=
  ServerInfo.ofParts ⟨[112], [117], 1, 1, [104]⟩ ⟨[120], [118], [105], 1094, [115]⟩ 7

/-- Access entry resolved by the C1 evaluation. -/
def accessC1 : PathAccessInfo := ⟨none, serverC1, [47, 102], none⟩

/-- Store holding exactly the C1 access entry. -/
def storeC1 : MapInfoStore :=
  { MapInfoStore.init with access_info := [((7, 42), accessC1)] }

/-! ### Theorems -/

/-- The comparator is asymmetric on all inputs: `a < b` and `b < a` never both
hold. -/
theorem PSeq.lt_asymm (a b : Nat) (h : PSeq.lt a b = true) : PSeq.lt b a = false := by
  simp only [PSeq.lt] at *
  split_ifs at * <;> simp_all <;> omega

/-- On a 64-wide cyclic window, the comparator agrees with the order of the
cyclic offsets from the window start. -/
theorem PSeq.lt_shift (s i j : Nat) (hs : s < 256) (hi : i < 64) (hj : j < 64) :
    PSeq.lt ((s + i) % 256) ((s + j) % 256) = decide (i < j) := by
  simp only [PSeq.lt]
  split_ifs <;> simp_all <;> omega

/-- Any value of the 0–255 range inside a window is the window start plus its
cyclic offset. -/
theorem inWindow_decomp (s w x : Nat) (hs : s < 256) (hx : x < 256)
    (h : inWindow s w x = true) :
    (s + (256 + x - s) % 256) % 256 = x ∧ (256 + x - s) % 256 < w := by
  simp only [inWindow, decide_eq_true_eq] at h
  refine ⟨by omega, h⟩

/-- C8 (counterexample): the sequence values 160, 250 and 10 all lie in the
128-wide cyclic window starting at 160, the `PSeq` comparator orders
`160 < 250` and `250 < 10`, yet not `160 < 10`: transitivity fails on a
128-wide window, so the claim as stated is false. -/
theorem C8_counterexample_window128_not_transitive :
    inWindow 160 128 160 = true ∧ inWindow 160 128 250 = true ∧
      inWindow 160 128 10 = true ∧
      PSeq.lt 160 250 = true ∧ PSeq.lt 250 10 = true ∧ PSeq.lt 160 10 = false := by
  decide

/-- C8 (amended): for all sequence values `a, b, c` of the 0–255 range that lie
together within any 64-wide cyclic window, the `PSeq` comparator is transitive
and antisymmetric. -/
theorem C8_pseq_order_on_64_window (s a b c : Nat)
    (hs : s < 256) (ha : a < 256) (hb : b < 256) (hc : c < 256)
    (hwa : inWindow s 64 a = true) (hwb : inWindow s 64 b = true)
    (hwc : inWindow s 64 c = true) :
    (PSeq.lt a b = true → PSeq.lt b c = true → PSeq.lt a c = true) ∧
      ¬(PSeq.lt a b = true ∧ PSeq.lt b a = true) := by
  obtain ⟨hA, hiA⟩ := inWindow_decomp s 64 a hs ha hwa
  obtain ⟨hB, hiB⟩ := inWindow_decomp s 64 b hs hb hwb
  obtain ⟨hC, hiC⟩ := inWindow_decomp s 64 c hs hc hwc
  constructor
  · intro hab hbc
    rw [← hA, ← hB, PSeq.lt_shift s _ _ hs hiA hiB, decide_eq_true_eq] at hab
    rw [← hB, ← hC, PSeq.lt_shift s _ _ hs hiB hiC, decide_eq_true_eq] at hbc
    rw [← hA, ← hC, PSeq.lt_shift s _ _ hs hiA hiC, decide_eq_true_eq]
    omega
  · rintro ⟨hab, hba⟩
    have := PSeq.lt_asymm a b hab
    rw [this] at hba
    exact Bool.false_ne_true hba

/-- C8 (witness): the amended window-order theorem applied to the concrete
window start 0 and the values 1, 2, 3. -/
theorem C8_pseq_order_on_64_window_witness :
    (PSeq.lt 1 2 = true → PSeq.lt 2 3 = true → PSeq.lt 1 3 = true) ∧
      ¬(PSeq.lt 1 2 = true ∧ PSeq.lt 2 1 = true) :=
  C8_pseq_order_on_64_window 0 1 2 3 (by decide) (by decide) (by decide)
    (by decide) (by decide) (by decide) (by decide)

/-- `insertDesc` produces a permutation of consing the element. -/
theorem insertDesc_perm (x : Nat) (l : List Nat) : (insertDesc x l).Perm (x :: l) := by
  induction l with
  | nil => simp [insertDesc]
  | cons y ys ih =>
      simp only [insertDesc]
      split
      · exact ((ih.cons y).trans (List.Perm.swap x y ys))
      · exact List.Perm.refl _

/-- `sortDesc` permutes its input. -/
theorem sortDesc_perm (l : List Nat) : (sortDesc l).Perm l := by
  induction l with
  | nil => exact List.Perm.refl _
  | cons x xs ih => exact (insertDesc_perm x (sortDesc xs)).trans (ih.cons x)

/-- Adjacent elements of an `insertDesc` result are never in ascending `PSeq`
order, provided the input already has that shape. -/
theorem insertDesc_chain (x : Nat) (l : List Nat)
    (h : l.Chain' (fun a b => PSeq.lt a b = false)) :
    (insertDesc x l).Chain' (fun a b => PSeq.lt a b = false) := by
  induction l with
  | nil => simp [insertDesc]
  | cons y ys ih =>
      rw [List.chain'_cons'] at h
      simp only [insertDesc]
      split
      · rename_i hlt
        rw [List.chain'_cons']
        refine ⟨?_, ih h.2⟩
        intro z hz
        cases ys with
        | nil =>
            simp [insertDesc] at hz
            subst hz
            exact PSeq.lt_asymm x y hlt
        | cons w ws =>
            simp only [insertDesc] at hz
            split at hz
            · simp only [List.head?_cons, Option.mem_def, Option.some.injEq] at hz
              subst hz
              exact h.1 w rfl
            · simp only [List.head?_cons, Option.mem_def, Option.some.injEq] at hz
              subst hz
              exact PSeq.lt_asymm x y hlt
      · rename_i hlt
        rw [List.chain'_cons']
        refine ⟨?_, List.chain'_cons'.mpr h⟩
        intro z hz
        simp only [List.head?_cons, Option.mem_def, Option.some.injEq] at hz
        subst hz
        exact Bool.eq_false_iff.mpr (fun hx => hlt (by simp [hx]))

/-- The result of `sortDesc` is descending: no adjacent pair is in ascending
`PSeq` order. -/
theorem sortDesc_chain (l : List Nat) :
    (sortDesc l).Chain' (fun a b => PSeq.lt a b = false) := by
  induction l with
  | nil => simp [sortDesc]
  | cons x xs ih => exact insertDesc_chain x (sortDesc xs) ih

/-- Every run of `streamLoop` yields a permutation of buffer and source whose
final `buffer.length` elements (the drained tail) are in ascending comparator
order. -/
theorem streamLoop_spec (rest : List Nat) :
    ∀ buffer : List Nat, buffer ≠ [] →
      ∃ ys zs, streamLoop buffer rest = ys ++ zs ∧
        (ys ++ zs).Perm (buffer ++ rest) ∧ zs.length = buffer.length ∧
        zs.Chain' (fun a b => PSeq.lt b a = false) := by
  induction rest with
  | nil =>
      intro buffer hb
      refine ⟨[], (sortDesc buffer).reverse, rfl, ?_, ?_, ?_⟩
      · simpa using ((sortDesc buffer).reverse_perm.trans (sortDesc_perm buffer))
      · simp [(sortDesc_perm buffer).length_eq]
      · rw [List.chain'_reverse]
        exact sortDesc_chain buffer
  | cons p rest ih =>
      intro buffer hb
      have hs : sortDesc buffer ≠ [] := by
        intro h
        exact hb ((h ▸ sortDesc_perm buffer).symm.eq_nil)
      obtain ⟨ys, zs, heq, hperm, hlen, hchain⟩ :=
        ih ((sortDesc buffer).dropLast ++ [p]) (by simp)
      refine ⟨(sortDesc buffer).getLastD 0 :: ys, zs, ?_, ?_, ?_, hchain⟩
      · simp [streamLoop, heq]
      · have hg : (sortDesc buffer).getLastD 0 = (sortDesc buffer).getLast hs := by
          rw [List.getLastD_eq_getLast?, List.getLast?_eq_getLast _ hs]
          rfl
        have hback : ((sortDesc buffer).getLastD 0 :: (sortDesc buffer).dropLast).Perm buffer := by
          rw [hg]
          refine List.Perm.trans ?_ (sortDesc_perm buffer)
          refine List.Perm.trans (List.perm_append_singleton _ _).symm ?_
          rw [List.dropLast_append_getLast hs]
        have step1 : (((sortDesc buffer).getLastD 0 :: ys) ++ zs).Perm
            ((sortDesc buffer).getLastD 0 :: (((sortDesc buffer).dropLast ++ [p]) ++ rest)) := by
          simpa using List.Perm.cons ((sortDesc buffer).getLastD 0) hperm
        refine step1.trans ?_
        have step2 : (sortDesc buffer).getLastD 0 :: (((sortDesc buffer).dropLast ++ [p]) ++ rest)
            = ((sortDesc buffer).getLastD 0 :: (sortDesc buffer).dropLast) ++ (p :: rest) := by
          simp
        rw [step2]
        exact hback.append_right (p :: rest)
      · have hlen2 : (sortDesc buffer).length = buffer.length := (sortDesc_perm buffer).length_eq
        have hpos : 0 < (sortDesc buffer).length := List.length_pos.mpr hs
        rw [hlen]
        simp only [List.length_append, List.length_dropLast, List.length_cons,
          List.length_nil]
        omega

/-- C6 (counterexample): a source framing a single packet (fewer than the
default `sort_window = 8`) makes `stream_packets` raise
`PacketBufferExhausted` out of the pre-fill loop without yielding anything,
instead of yielding the packet and terminating cleanly as claimed. -/
theorem C6_counterexample_prefill_exhaustion :
    stream_packets [5] 8 = .error .bufferExhausted ∧
      stream_packets [5] 8 ≠ .ok [5] := by
  decide

/-- C6 (amended): if the source holds at least `sort_window` packets,
exhaustion terminates `stream_packets` cleanly after it has yielded every
packet exactly once, with the drained buffer (the final `sort_window` packets)
in ascending comparator order; if the source is exhausted while the buffer is
still being pre-filled, `PacketBufferExhausted` escapes uncaught and no packet
is yielded. -/
theorem C6_exhaustion_behaviour (src : List Nat) (W : Nat)
    (h0 : 0 < W) (h128 : W < 128) :
    (W ≤ src.length →
      ∃ ys zs, stream_packets src W = .ok (ys ++ zs) ∧
        (ys ++ zs).Perm src ∧ zs.length = W ∧
        zs.Chain' (fun a b => PSeq.lt b a = false)) ∧
    (src.length < W → stream_packets src W = .error .bufferExhausted) := by
  constructor
  · intro hle
    have hW0 : ¬(W = 0 ∨ 128 ≤ W) := by omega
    have hsrc : ¬(src.length < W) := by omega
    have htk : (src.take W).length = W := by
      rw [List.length_take]
      omega
    have hne : src.take W ≠ [] := by
      intro h
      rw [h] at htk
      simp at htk
      omega
    obtain ⟨ys, zs, heq, hperm, hlen, hchain⟩ := streamLoop_spec (src.drop W) (src.take W) hne
    refine ⟨ys, zs, ?_, ?_, ?_, hchain⟩
    · simp [stream_packets, hW0, hsrc, heq]
    · simpa [List.take_append_drop] using hperm
    · rw [hlen, htk]
  · intro hlt
    have hW0 : ¬(W = 0 ∨ 128 ≤ W) := by omega
    simp [stream_packets, hW0, hlt]

/-- C6 (witness): the amended exhaustion theorem applied to the two-packet
source `[1, 2]` with `sort_window = 1`. -/
theorem C6_exhaustion_behaviour_witness :
    (1 ≤ ([1, 2] : List Nat).length →
      ∃ ys zs, stream_packets [1, 2] 1 = .ok (ys ++ zs) ∧
        (ys ++ zs).Perm [1, 2] ∧ zs.length = 1 ∧
        zs.Chain' (fun a b => PSeq.lt b a = false)) ∧
    (([1, 2] : List Nat).length < 1 → stream_packets [1, 2] 1 = .error .bufferExhausted) :=
  C6_exhaustion_behaviour [1, 2] 1 (by decide) (by decide)

/-- C7 (counterexample): the arrival stream with `pseq` values 8…15 followed by
0…7 under `sort_window = 8` is not delivered as `[0, 1, …, 15]` — the buffer
holds only eight packets, so 8 is emitted before 0 ever arrives. -/
theorem C7_counterexample_not_sender_order :
    stream_packets [8, 9, 10, 11, 12, 13, 14, 15, 0, 1, 2, 3, 4, 5, 6, 7] 8 ≠
      .ok [0, 1, 2, 3, 4, 5, 6, 7, 8, 9, 10, 11, 12, 13, 14, 15] := by
  decide

/-- C7 (amended): for that arrival stream and window, `stream_packets` delivers
`[8, 0, 1, 2, 3, 4, 5, 6, 7, 9, 10, 11, 12, 13, 14, 15]` — packet 8 is forced
out before packet 0 arrives and packets 9…15 form the drained tail. -/
theorem C7_delivery_order :
    stream_packets [8, 9, 10, 11, 12, 13, 14, 15, 0, 1, 2, 3, 4, 5, 6, 7] 8 =
      .ok [8, 0, 1, 2, 3, 4, 5, 6, 7, 9, 10, 11, 12, 13, 14, 15] := by
  decide

/-- C5 (counterexample): a source whose 8-byte header declares a `t` packet of
total length 24 but which holds no payload bytes at all — both payload reads
come up short (0 of the 16 requested bytes), yet the framer raises nothing: it
returns a packet with an empty record list instead of `SourceExhausted`. -/
theorem C5_counterexample_short_payload_not_exhausted :
    packet_from_buffer [116, 1, 0, 24, 0, 0, 0, 7] =
      .ok ⟨⟨116, 1, 24, 7⟩, .buff []⟩ ∧
    packet_from_buffer [116, 1, 0, 24, 0, 0, 0, 7] ≠
      .error .packetBufferExhausted := by
  have h : packet_from_buffer [116, 1, 0, 24, 0, 0, 0, 7] =
      .ok ⟨⟨116, 1, 24, 7⟩, .buff []⟩ := by
    simp [packet_from_buffer, Packet.from_buffer, Header.from_buffer, Header.size,
      Buff.from_record, buffRecords, readBytes, byteAt, beNat, toSigned, Except.map]
  exact ⟨h, by rw [h]; exact fun hc => Except.noConfusion hc⟩

/-- C5 (amended): only a short header read raises `SourceExhausted`
(`PacketBufferExhausted`): whenever the source returns fewer than the 8
requested header bytes the framer raises it, and it raises nothing else on
that path; a short payload read is not converted (see the counterexample,
where the truncated buffer decodes without any fault). -/
theorem C5_short_header_read_exhausts (source : List Nat)
    (h : source.length < 8) :
    packet_from_buffer source = .error .packetBufferExhausted := by
  have hlen : (source.take Header.size).length < 8 := by
    simp only [List.length_take, Header.size]
    omega
  simp only [packet_from_buffer, Header.from_buffer]
  rw [if_neg (by omega)]

/-- C5 (witness): the short-header theorem applied to a three-byte source. -/
theorem C5_short_header_read_exhausts_witness :
    packet_from_buffer [1, 2, 3] = .error .packetBufferExhausted :=
  C5_short_header_read_exhausts [1, 2, 3] (by decide)

/-- A fresh binding is found by the lookup. -/
theorem dictGet_dictSet {K V : Type} [DecidableEq K] (l : List (K × V)) (k : K) (v : V) :
    dictGet (dictSet l k v) k = some v := by
  simp [dictGet, dictSet, List.find?]

/-- C2 (counterexample): digesting a map record whose payload is `AppInfo`
raises an uncaught `KeyError` from the payload dispatch instead of completing
without error (the store is untouched). -/
theorem C2_counterexample_appinfo_raises :
    (MapInfoStore.init.digest_map 7
        ⟨1, ⟨[112], [117], 1, 1, [104]⟩, .appInfo ⟨[97]⟩⟩).1 =
      .error .keyError := by
  decide

/-- C2 (amended): for every map record whose payload is `AppInfo`, `PrgInfo`
or `XfrInfo`, digesting it through the correlation store raises an uncaught
`KeyError` (the `_payload_dispatch` lookup has no entry for those types) and
leaves the whole store — in particular the server, user and access tables —
unchanged. -/
theorem C2_undispatched_payloads (store : MapInfoStore) (stod : Int)
    (m : MapStruct) (h : m.payload.inDispatch = false) :
    store.digest_map stod m = (.error .keyError, store) := by
  cases hp : m.payload <;>
    simp_all [MapPayload.inDispatch, MapInfoStore.digest_map]

/-- C2 (witness): the amended theorem applied to a concrete `XfrInfo`
record. -/
theorem C2_undispatched_payloads_witness :
    MapInfoStore.init.digest_map 3
        ⟨2, ⟨[112], [117], 1, 1, [104]⟩, .xfrInfo ⟨[108], 0, 0, 0, [119], 0, none⟩⟩ =
      (.error .keyError, MapInfoStore.init) :=
  C2_undispatched_payloads MapInfoStore.init 3
    ⟨2, ⟨[112], [117], 1, 1, [104]⟩, .xfrInfo ⟨[108], 0, 0, 0, [119], 0, none⟩⟩
    (by decide)

/-- C3 (code bug): two `SrvInfo` digests with the same `(host, port)` but
different `sid` (1 then 2).  Because `_digest_map_server` never assigns to
`_server_lifetime`, no deletion of the first entry is ever enqueued — the
deletion queue stays empty, the lifetime index stays empty, and both server
entries remain resolvable.  The claimed scheduling of the prior entry's
eviction does not happen. -/
theorem C3_server_replacement_never_scheduled :
    (let st1 := (MapInfoStore.init.digest_map 7
        ⟨0, ⟨[112], [117], 10, 1, [104, 49]⟩, .srvInfo ⟨[120], [118], [105], 1094, [115]⟩⟩).2
     let st2 := (st1.digest_map 7
        ⟨0, ⟨[112], [117], 11, 2, [104, 49]⟩, .srvInfo ⟨[120], [118], [105], 1094, [115]⟩⟩).2
     st2.deletion_queue = [] ∧ st2.server_lifetime = [] ∧
       (st2.get_server 7 1).isOk = true ∧ (st2.get_server 7 2).isOk = true) := by
  decide

/-- C9 (code bug): freeing is indeed never an immediate removal — `free_user`
only enqueues — but an entry freed at tick 298 (29.8 s, with
`clean_delay = 30 s = 300` ticks and the 0.1 s guard) is executed at tick 301,
three ticks after the free and far before tick `298 + 300` up to which the
claim promises resolvability. -/
theorem C9_eviction_not_delayed_by_clean_delay :
    ((MapInfoStore.init.free_user 7 1).user_info = MapInfoStore.init.user_info ∧
      (MapInfoStore.init.free_user 7 1).deletion_queue = [.user (7, 1)]) ∧
    MapInfoStoreCleaner.executionTick 300 1 298 = 301 ∧ 301 < 298 + 300 := by
  decide

/-- C4 (code bug): with an empty store, an f-stream packet whose `FileTOD`
names unknown sid 5 is dropped whole via `StopTraversal` exactly as claimed;
but an r-stream packet whose `ServerIdent` names the same unknown sid lets
`MapInfoError` propagate to the consumer, because the handler catches
`KeyError` while `get_server` raises `MapInfoError`. -/
theorem C4_fstat_dropped_redir_error_surfaces :
    FstatStream.digest_fstat_packet 7 ⟨⟨0, 0, 1, 10, 20, 5⟩, [.dsc ⟨0, 9⟩]⟩
        MapInfoStore.init =
      (.error .stopTraversal, MapInfoStore.init) ∧
    RedirStream.digest_redir_packet 7 ⟨⟨5⟩, [.windowMark ⟨100, 0⟩]⟩
        MapInfoStore.init =
      (.error .mapInfoError, MapInfoStore.init) := by
  decide

/-- C1 (code bug): a trace `ReadWrite` record with `buflen = +5` produces
`read = 5, write = 0` as claimed, but one with `buflen = -5` produces
`write = -5` — the raw negative `buflen`, not `5` — while the struct's own
`writelen` property says the write amount is `5`. -/
theorem C1_readwrite_sign_split :
    TraceStream.ReadWrite.from_record ⟨0, 5, 42⟩ 7 storeC1 =
      .ok ⟨accessC1, [47, 102], 0, 5, 0⟩ ∧
    TraceStream.ReadWrite.from_record ⟨0, -5, 42⟩ 7 storeC1 =
      .ok ⟨accessC1, [47, 102], 0, 0, -5⟩ ∧
    ReadWriteStruct.writelen ⟨0, -5, 42⟩ = 5 ∧
    ((-5 : Int) ≠ 5) := by
  decide

/-- C10 (confirmed): digesting a `FileOPN` whose inline user dictid is 0 (the
`hasLFN` decoding path sets `user`/`lfn` inline) through `Open.from_record`
yields, for every store and server, a valid `Open` event whose access entry
has `client = None` and `auth = None` and whose `lfn` is the inline path, and
installs that `PathAccessInfo` at `(stod, fileid)`. -/
theorem C10_inline_open_null_client (store : MapInfoStore) (server : ServerInfo)
    (flags sz fileid filesize : Nat) (lfn : List Nat) :
    FstatStream.Open.from_record ⟨flags, sz, fileid, filesize, some 0, some lfn⟩
        server store =
      .ok (⟨⟨none, server, lfn, none⟩, lfn, decide (flags &&& recFval.hasRW ≠ 0), filesize⟩,
        { store with
          access_info := dictSet store.access_info (server.stod, fileid)
            ⟨none, server, lfn, none⟩ }) ∧
    (∀ store' : MapInfoStore,
      dictGet (dictSet store'.access_info (server.stod, fileid)
          (⟨none, server, lfn, none⟩ : PathAccessInfo)) (server.stod, fileid) =
        some ⟨none, server, lfn, none⟩) := by
  constructor
  · simp [FstatStream.Open.from_record, MapInfoStore.set_access]
  · intro store'
    exact dictGet_dictSet _ _ _

end Xrootdlib
